import Mathlib

/-!
Verification of the gijiroku-kun dual-channel capture core.

Shallow embedding of:
* `src/lib/ai-service.ts` — the Groq batch transcription call with its
  hallucination filter (`WHISPER_HALLUCINATIONS`, `transcribeWithGroq`);
* `src/lib/speech-recognition.ts` — `SpeechRecognitionEngine`, the
  reconnecting recognition session for the self channel;
* the audio capture module — `AudioCaptureEngine`, the other-channel
  capture with mix graph, double-buffered segment rotation and teardown.

Strings coming from the network are modelled as `List Char`; JavaScript
`String.prototype.trim` and `String.prototype.includes` are embedded
explicitly.  Blob payloads are modelled by their byte size (`Nat`), which
is all the code ever inspects (`blob.size`, `e.data.size`).
-/

namespace Gijiroku

/-- Characters removed by JavaScript `String.prototype.trim`
(ECMAScript WhiteSpace and LineTerminator sets). -/
def isJsWhitespace (c : Char) : Bool :=
  c = ' ' || c = '\t' || c = '\n' || c = '\r' ||
  c = Char.ofNat 0x0b || c = Char.ofNat 0x0c ||
  c = Char.ofNat 0xa0 || c = Char.ofNat 0xfeff ||
  c = Char.ofNat 0x1680 ||
  (0x2000 ≤ c.toNat && c.toNat ≤ 0x200a) ||
  c = Char.ofNat 0x2028 || c = Char.ofNat 0x2029 ||
  c = Char.ofNat 0x202f || c = Char.ofNat 0x205f ||
  c = Char.ofNat 0x3000

/-- JavaScript `s.trim()`: strip whitespace from both ends. -/
def jsTrim (s : List Char) : List Char :=
  ((s.dropWhile isJsWhitespace).reverse.dropWhile isJsWhitespace).reverse

/-- Does `needle` occur at the very start of `hay`? -/
def startsWithList : List Char → List Char → Bool
  | [], _ => true
  | _ :: _, [] => false
  | a :: as, b :: bs => a = b && startsWithList as bs

/-- JavaScript `hay.includes(needle)`: contiguous substring test. -/
def jsIncludes (needle : List Char) : List Char → Bool
  | [] => startsWithList needle []
  | c :: rest => startsWithList needle (c :: rest) || jsIncludes needle rest

/-- The fixed denylist of spurious phrases from `ai-service.ts`
(`WHISPER_HALLUCINATIONS`). -/
def WHISPER_HALLUCINATIONS : List (List Char) :=
  [ "ご視聴ありがとうございました".toList
  , "チャンネル登録".toList
  , "高評価".toList
  , "Thanks for watching".toList
  , "Please subscribe".toList
  , "字幕".toList
  , "おやすみなさい".toList
  , "視聴ありがとうございました".toList
  , "最後までご視聴".toList ]

/-- Outcome of the fetch/json environment inside `transcribeWithGroq`:
the fetch may throw, return a non-OK response, the json parse may throw,
or a body is parsed whose `text` field may be absent. -/
inductive FetchOutcome where
  | fetchThrows
  | httpError (status : Nat)
  | jsonThrows
  | okJson (text : Option (List Char))
  deriving DecidableEq, Repr

/-- The body of the `try` block of `transcribeWithGroq` after the key
check: a thrown error is `Except.error`, a returned value `Except.ok`.
On a parsed body, `data.text?.trim()` is computed; an absent or empty
trimmed text yields `null`, a text containing a denylist entry yields
`null`, otherwise the trimmed text is returned. -/
def groqTryBody (o : FetchOutcome) : Except Unit (Option (List Char)) :=
  match o with
  | .fetchThrows => .error ()
  | .httpError _ => .ok none
  | .jsonThrows => .error ()
  | .okJson none => .ok none
  | .okJson (some raw) =>
      let text := jsTrim raw
      if text = [] then .ok none
      else if WHISPER_HALLUCINATIONS.any (fun h => jsIncludes h text) then .ok none
      else .ok (some text)

/-- `transcribeWithGroq` from `ai-service.ts`: an empty API key returns
`null` at once; otherwise the `try` body runs and its `catch` converts
any thrown error into a normal `null` return.  The `Except` layer records
whether the call as a whole throws to its caller. -/
def transcribeWithGroq (groqApiKey : String) (o : FetchOutcome) :
    Except Unit (Option (List Char)) :=
  if groqApiKey = "" then .ok none
  else
    match groqTryBody o with
    | .ok r => .ok r
    | .error _ => .ok none

/-!
Model of `SpeechRecognitionEngine` (`src/lib/speech-recognition.ts`).
The engine holds the fields `recognition` (modelled by the flag
`hasRecognition`), `isRunning` and `shouldRestart`.  Each handler and
method is embedded as a function from the engine state to the new state
plus the list of observable actions it performs, in order.
-/

namespace SpeechRec

/-- Mutable fields of `SpeechRecognitionEngine`. -/
structure EngineState where
  hasRecognition : Bool
  isRunning : Bool
  shouldRestart : Bool
  deriving DecidableEq, Repr

/-- The fresh engine: `recognition = null`, not running, no restart. -/
def initialState : EngineState :=
  { hasRecognition := false, isRunning := false, shouldRestart := false }

/-- Observable actions of the engine, in the order they are performed. -/
inductive Action where
  | constructRecognition
  | primitiveStart
  | primitiveStop
  | restartAttempt (delayMs : Nat)
  | cbOnStart
  | cbOnEnd
  | cbOnError (msg : String)
  | cbFinal (text : String)
  | cbInterim (text : String)
  deriving DecidableEq, Repr

/-- The delayed restart attempts contained in a list of actions. -/
def restartAttempts (acts : List Action) : List Nat :=
  acts.filterMap fun a =>
    match a with
    | .restartAttempt d => some d
    | _ => none

/-- The `onstart` handler: marks running and fires the start callback. -/
def handleStarted (s : EngineState) : EngineState × List Action :=
  ({ s with isRunning := true }, [.cbOnStart])

/-- The `onend` handler: clears `isRunning`; when `shouldRestart` holds,
`this.recognition?.start()` is attempted at once (the optional chain does
nothing when `recognition` is null, and a synchronous throw is swallowed);
otherwise the end callback fires. -/
def handleEnded (s : EngineState) : EngineState × List Action :=
  let s1 := { s with isRunning := false }
  if s1.shouldRestart then
    (s1, if s1.hasRecognition then [.restartAttempt 0] else [])
  else
    (s1, [.cbOnEnd])

/-- The `onerror` handler: when `shouldRestart` holds, a restart attempt
is scheduled with `setTimeout(..., 1000)`; otherwise nothing happens. -/
def handleError (s : EngineState) : EngineState × List Action :=
  if s.shouldRestart then
    (s, if s.hasRecognition then [.restartAttempt 1000] else [])
  else
    (s, [])

/-- `start()`: fails fast when the Web Speech API is unsupported; returns
`true` at once when already running; otherwise constructs a recognition
instance, registers handlers, sets `shouldRestart`, and calls the
primitive `start` (a synchronous throw is caught and reported).
`supported` and `startThrows` describe the environment. -/
def start (supported startThrows : Bool) (s : EngineState) :
    Bool × EngineState × List Action :=
  if !supported then
    (false, s, [.cbOnError "Web Speech API がサポートされていません（Chromeをご利用ください）"])
  else if s.isRunning then
    (true, s, [])
  else
    let s1 := { s with hasRecognition := true, shouldRestart := true }
    if startThrows then
      (false, s1, [.constructRecognition, .primitiveStart,
                   .cbOnError "音声認識の開始に失敗しました"])
    else
      (true, s1, [.constructRecognition, .primitiveStart])

/-- `stop()`: clears `shouldRestart`, calls the primitive `stop` inside
try/catch when an instance exists, and clears `isRunning`. -/
def stop (s : EngineState) : EngineState × List Action :=
  ({ s with shouldRestart := false, isRunning := false },
   if s.hasRecognition then [.primitiveStop] else [])

/-- `getIsRunning()`: `isRunning || shouldRestart`. -/
def getIsRunning (s : EngineState) : Bool :=
  s.isRunning || s.shouldRestart

/-- A termination signal from the recognition primitive. -/
inductive Signal where
  | ended
  | error
  deriving DecidableEq, Repr

/-- Dispatch one termination signal to its handler. -/
def handleSignal (s : EngineState) : Signal → EngineState × List Action
  | .ended => handleEnded s
  | .error => handleError s

/-- Process a sequence of termination signals, accumulating actions. -/
def runSignals (s : EngineState) : List Signal → EngineState × List Action
  | [] => (s, [])
  | sig :: rest =>
      ((runSignals (handleSignal s sig).1 rest).1,
       (handleSignal s sig).2 ++ (runSignals (handleSignal s sig).1 rest).2)

/-!
The `onresult` handler.  Each entry of the result list is one
`SpeechRecognitionResult`; the handler reads `result.isFinal` and
`result[0].transcript` (the first alternative), so a result is modelled
by those two fields.
-/

/-- One recognition result: its finality flag and the transcript of its
first alternative (`result[0].transcript`). -/
structure SRResult where
  isFinal : Bool
  transcript : String
  deriving DecidableEq, Repr

/-- The accumulation loop of `onresult`: starting from already-collected
`(finalText, interimText)`, append each transcript to the matching
accumulator, in result order. -/
def collectLoop (acc : String × String) : List SRResult → String × String
  | [] => acc
  | r :: rs =>
      if r.isFinal then collectLoop (acc.1 ++ r.transcript, acc.2) rs
      else collectLoop (acc.1, acc.2 ++ r.transcript) rs

/-- The `onresult` handler: collect final and interim text over the
window `results[resultIndex..]`, emit the interim preview when nonempty,
then emit the final text (when nonempty) followed by an empty interim
replacement. -/
def handleResult (results : List SRResult) (resultIndex : Nat) : List Action :=
  let (finalText, interimText) := collectLoop ("", "") (results.drop resultIndex)
  (if interimText ≠ "" then [Action.cbInterim interimText] else []) ++
  (if finalText ≠ "" then [Action.cbFinal finalText, Action.cbInterim ""] else [])

/-- Spec-side description of the collected text: concatenation of the
transcripts of the results selected by `p`, in order. -/
def concatTranscripts (p : SRResult → Bool) (l : List SRResult) : String :=
  (l.filter p).foldr (fun r acc => r.transcript ++ acc) ""

end SpeechRec

/-!
Model of `AudioCaptureEngine` (the audio capture module).  Web Audio
nodes are modelled by presence flags, a `MediaStream` by its track
counts and `active` flag, a `MediaRecorder` by its `state`, and a blob
by its byte size.  Methods are embedded as functions from engine state
to new state plus the ordered list of observable actions.
-/

namespace AudioCap

/-- A `MediaStream`: its audio and video track counts and liveness. -/
structure StreamModel where
  audioTracks : Nat
  videoTracks : Nat
  active : Bool
  deriving DecidableEq, Repr

/-- A `MediaRecorder` state (`"inactive"` vs `"recording"`). -/
inductive RecState where
  | inactive
  | recording
  deriving DecidableEq, Repr

/-- Mutable fields of `AudioCaptureEngine`. -/
structure EngineState where
  micStream : Option StreamModel
  systemStream : Option StreamModel
  recorders : List RecState
  recorderChunks : List (List Nat)
  activeRecorderIndex : Nat
  switchInterval : Bool
  audioContext : Bool
  sourceNode : Bool
  inputGainNode : Bool
  destinationNode : Bool
  keepAliveOscillator : Bool
  analyserNode : Bool
  deriving DecidableEq, Repr

/-- The freshly constructed engine. -/
def initialState : EngineState :=
  { micStream := none, systemStream := none, recorders := []
  , recorderChunks := [[], []], activeRecorderIndex := 0
  , switchInterval := false, audioContext := false, sourceNode := false
  , inputGainNode := false, destinationNode := false
  , keepAliveOscillator := false, analyserNode := false }

/-- Observable actions of the engine, in the order they are performed. -/
inductive Action where
  | createAudioContext
  | stopSystemTracks
  | disableVideoTracks
  | createSourceNode
  | createDestinationNode
  | createGainNode
  | createAnalyserNode
  | createOscillator
  | oscillatorStart
  | oscillatorStop
  | nodeDisconnect (name : String)
  | recorderCreate (i : Nat)
  | recorderStart (i : Nat)
  | recorderStartTimeslice (ms : Nat)
  | recorderStop (i : Nat)
  | setIntervalMs (ms : Nat)
  | clearRotationInterval
  | emitChunk (size : Nat)
  | notifyState (micActive systemActive : Bool)
  | consoleWarn
  | consoleError
  deriving DecidableEq, Repr

/-- `getState()`: each channel is active when its stream is non-null and
the stream itself is active. -/
def getState (s : EngineState) : Bool × Bool :=
  ( (match s.micStream with | some st => st.active | none => false)
  , (match s.systemStream with | some st => st.active | none => false) )

/-- `notifyStateChange()` as the action it emits. -/
def notifyAction (s : EngineState) : Action :=
  .notifyState (getState s).1 (getState s).2

/-- `startDualRecording`: create the two recorders bound to the mixed
stream, reset the active index, start recorder 0, and arm the 3000 ms
rotation timer. -/
def startDualRecording (s : EngineState) : EngineState × List Action :=
  ({ s with recorders := [.recording, .inactive]
          , activeRecorderIndex := 0
          , switchInterval := true },
   [.recorderCreate 0, .recorderCreate 1, .recorderStart 0, .setIntervalMs 3000])

/-- `startSimpleRecording`: the fallback single recorder, started with a
3000 ms timeslice so chunks are produced without rotation. -/
def startSimpleRecording (s : EngineState) : EngineState × List Action :=
  ({ s with recorders := [.recording] },
   [.recorderCreate 0, .recorderStartTimeslice 3000])

/-- How far node construction in `setupAudioMixing` gets: `none` means
the whole `try` block succeeds; `some k` means a throw occurs after `k`
of the five node-creation steps (source, destination, gain, analyser,
oscillator) completed, and the `catch` falls back to simple recording on
the raw stream. -/
def GraphOutcome : Type := Option Nat

/-- The node-creation actions corresponding to the first `k` steps. -/
def graphStepActions (k : Nat) : List Action :=
  ([.createSourceNode, .createDestinationNode, .createGainNode,
    .createAnalyserNode, .createOscillator] : List Action).take k

/-- `setupAudioMixing`: returns silently when no `AudioContext` exists;
otherwise builds source, destination, gain (5x), analyser, and the
keep-alive oscillator, then starts dual recording on the mixed stream.
Any throw is caught and `startSimpleRecording` runs on the raw stream. -/
def setupAudioMixing (g : GraphOutcome) (s : EngineState) :
    EngineState × List Action :=
  if !s.audioContext then (s, [])
  else
    match g with
    | none =>
        let s1 := { s with sourceNode := true, destinationNode := true
                         , inputGainNode := true, analyserNode := true
                         , keepAliveOscillator := true }
        let (s2, acts) := startDualRecording s1
        (s2, graphStepActions 5 ++ [.oscillatorStart] ++ acts)
    | some k =>
        let s1 := { s with sourceNode := 1 ≤ k, destinationNode := 2 ≤ k
                         , inputGainNode := 3 ≤ k, analyserNode := 4 ≤ k
                         , keepAliveOscillator := 5 ≤ k }
        let (s2, acts) := startSimpleRecording s1
        (s2, graphStepActions k ++ [.consoleError] ++ acts)

/-- `stopSystemAudio()`: cancel the rotation timer, stop every recorder
still active, drop the recorder pool and its buffers, stop and release
the keep-alive oscillator and every mix-graph node, stop the system
stream tracks, and notify. -/
def stopSystemAudio (s : EngineState) : EngineState × List Action :=
  let aTimer := if s.switchInterval then [Action.clearRotationInterval] else []
  let aRecs := (s.recorders.enum.filterMap fun p =>
    if p.2 ≠ RecState.inactive then some (Action.recorderStop p.1) else none)
  let aOsc := if s.keepAliveOscillator then
      [Action.oscillatorStop, Action.nodeDisconnect "keepAliveOscillator"] else []
  let aSrc := if s.sourceNode then [Action.nodeDisconnect "sourceNode"] else []
  let aGain := if s.inputGainNode then [Action.nodeDisconnect "inputGainNode"] else []
  let aAn := if s.analyserNode then [Action.nodeDisconnect "analyserNode"] else []
  let aStream := match s.systemStream with
    | some _ => [Action.stopSystemTracks]
    | none => []
  let s1 : EngineState :=
    { s with switchInterval := false, recorders := [], recorderChunks := [[], []]
           , keepAliveOscillator := false, sourceNode := false
           , destinationNode := false, inputGainNode := false
           , analyserNode := false, systemStream := none }
  (s1, aTimer ++ aRecs ++ aOsc ++ aSrc ++ aGain ++ aAn ++ aStream ++ [notifyAction s1])

/-- Outcome of `getDisplayMedia`: a throw (permission denied etc.) or a
captured stream with given track counts. -/
inductive DisplayMediaOutcome where
  | throwsError
  | stream (audioTracks videoTracks : Nat)
  deriving DecidableEq, Repr

/-- Environment of one `startSystemAudio` call. -/
structure CaptureEnv where
  audioContextOk : Bool
  displayMedia : DisplayMediaOutcome
  graph : GraphOutcome

/-- `startSystemAudio()`: initialise the `AudioContext` when absent,
request display media, fail (returning `false`, stopping the stream)
when the stream carries zero audio tracks, otherwise disable the video
tracks, build the mix graph (with its internal fallback), register the
track `onended` teardown, notify, and return `true`.  Any throw inside
the `try` is caught and yields `false`. -/
def startSystemAudio (env : CaptureEnv) (s : EngineState) :
    Bool × EngineState × List Action :=
  let ctx := if !s.audioContext then
      (if env.audioContextOk then
        (some ({ s with audioContext := true }), [Action.createAudioContext])
      else (none, []))
    else (some s, [])
  match ctx with
  | (none, acts) => (false, s, acts ++ [Action.consoleError])
  | (some s0, acts0) =>
    match env.displayMedia with
    | .throwsError => (false, s0, acts0 ++ [Action.consoleError])
    | .stream a v =>
        let s1 := { s0 with systemStream := some ⟨a, v, true⟩ }
        if a = 0 then
          let (s2, acts2) := stopSystemAudio s1
          (false, s2, acts0 ++ [Action.consoleWarn] ++ acts2)
        else
          let (s2, acts2) := setupAudioMixing env.graph s1
          (true, s2, acts0 ++ [Action.disableVideoTracks] ++ acts2 ++ [notifyAction s2])

/-- The rotation-timer tick of `startDualRecording`: compute the next
index, start the next recorder when it is inactive, then stop the
current recorder when it is active, then swap the active index. -/
def switchTick (s : EngineState) : EngineState × List Action :=
  let nextIndex := (s.activeRecorderIndex + 1) % 2
  let currentIndex := s.activeRecorderIndex
  let doStart := s.recorders.getD nextIndex .inactive = RecState.inactive
  let s1 := if doStart then
      { s with recorders := s.recorders.set nextIndex .recording } else s
  let doStop := s1.recorders.getD currentIndex .inactive ≠ RecState.inactive
  let s2 := if doStop then
      { s1 with recorders := s1.recorders.set currentIndex .inactive } else s1
  ({ s2 with activeRecorderIndex := nextIndex },
   (if doStart then [Action.recorderStart nextIndex] else []) ++
   (if doStop then [Action.recorderStop currentIndex] else []))

/-- The `ondataavailable` handler of recorder `index`: push the blob
onto that recorder's buffer when it has nonzero size. -/
def recorderOnData (s : EngineState) (index : Nat) (dataSize : Nat) : EngineState :=
  if 0 < dataSize then
    { s with recorderChunks :=
        s.recorderChunks.set index (s.recorderChunks.getD index [] ++ [dataSize]) }
  else s

/-- The `onstop` handler of recorder `index`: assemble the buffered
blobs into one segment, clear the buffer, and emit the segment to the
chunk callback only when its size is nonzero. -/
def recorderOnStop (s : EngineState) (index : Nat) : EngineState × List Action :=
  let blobSize := (s.recorderChunks.getD index []).foldl (· + ·) 0
  let s1 := { s with recorderChunks := s.recorderChunks.set index [] }
  (s1, if 0 < blobSize then [Action.emitChunk blobSize] else [])

/-- Actions that construct part of the audio mix graph. -/
def isGraphConstruction : Action → Bool
  | .createSourceNode => true
  | .createDestinationNode => true
  | .createGainNode => true
  | .createAnalyserNode => true
  | .createOscillator => true
  | .oscillatorStart => true
  | _ => false

/-- Actions that construct part of the segment recorder pool. -/
def isPoolConstruction : Action → Bool
  | .recorderCreate _ => true
  | .recorderStart _ => true
  | .recorderStartTimeslice _ => true
  | .setIntervalMs _ => true
  | _ => false

/-- The state after `stopSystemAudio` is the input state with every
other-channel resource reset. -/
theorem stopSystemAudio_state (s : EngineState) :
    (stopSystemAudio s).1 =
      { s with switchInterval := false, recorders := [], recorderChunks := [[], []]
             , keepAliveOscillator := false, sourceNode := false
             , destinationNode := false, inputGainNode := false
             , analyserNode := false, systemStream := none } := rfl

/-- No action of `stopSystemAudio` constructs a mix-graph node or a
recorder-pool resource. -/
theorem stopSystemAudio_no_construction (s : EngineState) :
    ∀ a ∈ (stopSystemAudio s).2,
      isGraphConstruction a = false ∧ isPoolConstruction a = false := by
  intro a ha
  unfold stopSystemAudio at ha
  rcases List.mem_append.1 ha with ha | h
  rotate_left
  · rw [List.mem_singleton] at h
    subst h; exact ⟨rfl, rfl⟩
  rcases List.mem_append.1 ha with ha | h
  rotate_left
  · split at h
    · rw [List.mem_singleton] at h
      subst h; exact ⟨rfl, rfl⟩
    · cases h
  rcases List.mem_append.1 ha with ha | h
  rotate_left
  · split at h
    · rw [List.mem_singleton] at h
      subst h; exact ⟨rfl, rfl⟩
    · cases h
  rcases List.mem_append.1 ha with ha | h
  rotate_left
  · split at h
    · rw [List.mem_singleton] at h
      subst h; exact ⟨rfl, rfl⟩
    · cases h
  rcases List.mem_append.1 ha with ha | h
  rotate_left
  · split at h
    · rw [List.mem_singleton] at h
      subst h; exact ⟨rfl, rfl⟩
    · cases h
  rcases List.mem_append.1 ha with ha | h
  rotate_left
  · split at h
    · rw [List.mem_cons] at h
      rcases h with rfl | h
      · exact ⟨rfl, rfl⟩
      · rw [List.mem_singleton] at h
        subst h; exact ⟨rfl, rfl⟩
    · cases h
  rcases List.mem_append.1 ha with h | h
  · split at h
    · rw [List.mem_singleton] at h
      subst h; exact ⟨rfl, rfl⟩
    · cases h
  · obtain ⟨p, hp, hpe⟩ := List.mem_filterMap.1 h
    split at hpe
    · cases hpe; exact ⟨rfl, rfl⟩
    · cases hpe

/-- `stopSystemAudio` emits the track-stop action whenever a system
stream is present. -/
theorem stopSystemTracks_mem (s : EngineState) (hs : s.systemStream ≠ none) :
    Action.stopSystemTracks ∈ (stopSystemAudio s).2 := by
  unfold stopSystemAudio
  cases h : s.systemStream with
  | none => exact absurd h hs
  | some st =>
      refine List.mem_append.2 (Or.inl ?_)
      refine List.mem_append.2 (Or.inr ?_)
      simp [h]

/-- Reading back the slot just overwritten with the default yields the
default, whether or not the index is in range. -/
theorem getD_set_self {α : Type} (l : List α) (i : Nat) (d : α) :
    (l.set i d).getD i d = d := by
  induction l generalizing i with
  | nil => simp [List.getD]
  | cons a t ih =>
      cases i with
      | zero => simp [List.set, List.getD]
      | succ n => simpa [List.set, List.getD] using ih n

/-- Partial node construction never contains a pool-construction or a
rotation-timer action. -/
theorem graphStepActions_pool_free (k : Nat) :
    ∀ a ∈ graphStepActions k, isPoolConstruction a = false := by
  intro a ha
  have hm : a ∈ ([.createSourceNode, .createDestinationNode, .createGainNode,
      .createAnalyserNode, .createOscillator] : List Action) :=
    List.take_subset k _ ha
  simp only [List.mem_cons, List.not_mem_nil, or_false] at hm
  rcases hm with rfl | rfl | rfl | rfl | rfl <;> rfl

end AudioCap

/-!
Helper lemmas shared by the claim theorems.
-/

namespace SpeechRec

/-- Restart attempts distribute over concatenation of action lists. -/
theorem restartAttempts_append (a b : List Action) :
    restartAttempts (a ++ b) = restartAttempts a ++ restartAttempts b := by
  simp [restartAttempts, List.filterMap_append]

/-- Once `shouldRestart` is cleared, any sequence of ended and error
signals keeps it cleared and produces no restart attempt. -/
theorem runSignals_no_restart (sigs : List Signal) (s : EngineState)
    (h : s.shouldRestart = false) :
    (runSignals s sigs).1.shouldRestart = false ∧
    restartAttempts (runSignals s sigs).2 = [] := by
  induction sigs generalizing s with
  | nil => simp [runSignals, restartAttempts, h]
  | cons sig rest ih =>
      cases sig with
      | ended =>
          have h1 : (handleEnded s).1.shouldRestart = false := by
            simp [handleEnded, h]
          have h2 : (handleEnded s).2 = [Action.cbOnEnd] := by
            simp [handleEnded, h]
          obtain ⟨ihs, iha⟩ := ih (handleEnded s).1 h1
          refine ⟨by simpa [runSignals, handleSignal] using ihs, ?_⟩
          rw [runSignals]
          show restartAttempts ((handleSignal s .ended).2 ++
            (runSignals (handleSignal s .ended).1 rest).2) = []
          rw [restartAttempts_append]
          simp only [handleSignal] at *
          rw [h2, iha]
          rfl
      | error =>
          have h1 : (handleError s).1.shouldRestart = false := by
            simp [handleError, h]
          have h2 : (handleError s).2 = [] := by
            simp [handleError, h]
          obtain ⟨ihs, iha⟩ := ih (handleError s).1 h1
          refine ⟨by simpa [runSignals, handleSignal] using ihs, ?_⟩
          rw [runSignals]
          show restartAttempts ((handleSignal s .error).2 ++
            (runSignals (handleSignal s .error).1 rest).2) = []
          rw [restartAttempts_append]
          simp only [handleSignal] at *
          rw [h2, iha]
          rfl

/-- The accumulation loop collects exactly the concatenation of the
final transcripts and the concatenation of the interim transcripts. -/
theorem collectLoop_eq (l : List SRResult) (acc : String × String) :
    collectLoop acc l =
      (acc.1 ++ concatTranscripts (fun r => r.isFinal) l,
       acc.2 ++ concatTranscripts (fun r => !r.isFinal) l) := by
  induction l generalizing acc with
  | nil => simp [collectLoop, concatTranscripts, String.append_empty]
  | cons r rs ih =>
      cases hf : r.isFinal <;>
        simp [collectLoop, concatTranscripts, hf, ih, List.filter_cons,
              String.append_assoc]

end SpeechRec

/-!
Claim theorems.
-/

/-- Claim C1: for the reconnecting recognition session, a termination
signal triggers a restart attempt exactly when the session has not been
intentionally stopped: an ended signal while not stopped yields exactly
one immediate restart attempt (delay 0 ms), an error signal yields
exactly one restart attempt after the fixed 1000 ms delay, and after
`stop()` no ended or error signal ever produces a restart attempt. -/
theorem C1_ended_error_restart_policy (s : SpeechRec.EngineState)
    (h : s.hasRecognition = true) :
    (SpeechRec.restartAttempts (SpeechRec.handleEnded s).2 =
        if s.shouldRestart then [0] else []) ∧
    (SpeechRec.restartAttempts (SpeechRec.handleError s).2 =
        if s.shouldRestart then [1000] else []) ∧
    (∀ sigs : List SpeechRec.Signal,
      SpeechRec.restartAttempts
        (SpeechRec.runSignals (SpeechRec.stop s).1 sigs).2 = []) := by
  refine ⟨?_, ?_, ?_⟩
  · cases hr : s.shouldRestart <;>
      simp [SpeechRec.handleEnded, SpeechRec.restartAttempts, h, hr]
  · cases hr : s.shouldRestart <;>
      simp [SpeechRec.handleError, SpeechRec.restartAttempts, h, hr]
  · intro sigs
    have hstop : (SpeechRec.stop s).1.shouldRestart = false := by
      simp [SpeechRec.stop]
    exact (SpeechRec.runSignals_no_restart sigs (SpeechRec.stop s).1 hstop).2

/-- Witness for C1: after stopping a live session, the signal sequence
ended, error, ended produces no restart attempt. -/
theorem C1_restart_policy_witness :
    SpeechRec.restartAttempts
      (SpeechRec.runSignals
        (SpeechRec.stop ⟨true, true, true⟩).1
        [.ended, .error, .ended]).2 = [] :=
  (C1_ended_error_restart_policy ⟨true, true, true⟩ rfl).2.2 [.ended, .error, .ended]

/-- Claim C9: the liveness query reports running exactly when the
primitive is actively running or the session still intends to run; it
reports true in the restart window right after an ended signal of a
non-stopped session, and false after an intentional `stop()`. -/
theorem C9_liveness_query (s : SpeechRec.EngineState) :
    (SpeechRec.getIsRunning s = true ↔
        (s.isRunning = true ∨ s.shouldRestart = true)) ∧
    (s.shouldRestart = true →
        SpeechRec.getIsRunning (SpeechRec.handleEnded s).1 = true) ∧
    SpeechRec.getIsRunning (SpeechRec.stop s).1 = false := by
  refine ⟨?_, ?_, ?_⟩
  · simp [SpeechRec.getIsRunning]
  · intro h
    simp [SpeechRec.getIsRunning, SpeechRec.handleEnded, h]
  · simp [SpeechRec.getIsRunning, SpeechRec.stop]

/-- Witness for C9: a session whose primitive just ended but that still
intends to restart reports running. -/
theorem C9_liveness_witness :
    SpeechRec.getIsRunning (SpeechRec.handleEnded ⟨true, false, true⟩).1 = true :=
  (C9_liveness_query ⟨true, false, true⟩).2.1 rfl

/-- Claim C10: calling `start()` on a session that is already running
returns true immediately, leaves the state unchanged, and performs no
action: no new recognition instance, no handler registration, no
primitive start. -/
theorem C10_start_on_running_noop (s : SpeechRec.EngineState)
    (startThrows : Bool) (h : s.isRunning = true) :
    SpeechRec.start true startThrows s = (true, s, []) := by
  simp [SpeechRec.start, h]

/-- Witness for C10: starting a running session is a silent success. -/
theorem C10_start_witness :
    SpeechRec.start true true ⟨true, true, true⟩ = (true, ⟨true, true, true⟩, []) :=
  C10_start_on_running_noop ⟨true, true, true⟩ true rfl

/-- Claim C3: the batch transcription call never throws to its caller:
it always returns normally, and a missing API key, a non-OK HTTP
response, or a thrown network or parse error each yield the result
`null` rather than a propagated exception. -/
theorem C3_transcribe_never_throws (key : String) (o : FetchOutcome) :
    (∃ r, transcribeWithGroq key o = .ok r) ∧
    (key = "" → transcribeWithGroq key o = .ok none) ∧
    (∀ st, transcribeWithGroq key (.httpError st) = .ok none) ∧
    transcribeWithGroq key .fetchThrows = .ok none ∧
    transcribeWithGroq key .jsonThrows = .ok none := by
  refine ⟨?_, ?_, ?_, ?_, ?_⟩
  · by_cases hk : key = ""
    · exact ⟨none, by simp [transcribeWithGroq, hk]⟩
    · cases hb : groqTryBody o with
      | ok r => exact ⟨r, by simp [transcribeWithGroq, hk, hb]⟩
      | error e => exact ⟨none, by simp [transcribeWithGroq, hk, hb]⟩
  · intro hk
    simp [transcribeWithGroq, hk]
  · intro st
    by_cases hk : key = "" <;> simp [transcribeWithGroq, groqTryBody, hk]
  · by_cases hk : key = "" <;> simp [transcribeWithGroq, groqTryBody, hk]
  · by_cases hk : key = "" <;> simp [transcribeWithGroq, groqTryBody, hk]

/-- Witness for C3: a missing key with a well-formed response still
yields a normal `null` return. -/
theorem C3_transcribe_witness :
    transcribeWithGroq "" (.okJson (some "a".toList)) = .ok none :=
  (C3_transcribe_never_throws "" (.okJson (some "a".toList))).2.1 rfl

/-- Counterexample for C2: the accepted text is not returned unchanged.
A response whose text carries a leading space passes the filter but
comes back trimmed, so the output differs from the response text. -/
theorem C2_not_unchanged_counterexample :
    transcribeWithGroq "k" (.okJson (some (" よろしくお願いします".toList)))
      = .ok (some ("よろしくお願いします".toList)) ∧
    ("よろしくお願いします".toList : List Char) ≠ " よろしくお願いします".toList :=
  ⟨rfl, by decide⟩

/-- Claim C2 as amended: with an API key present, a parsed response is
discarded (result `null`) exactly when its trimmed text is empty or
contains some denylist entry as a substring, and otherwise the trimmed
text is returned; in particular the first denylist phrase is discarded
and a clean phrase already free of surrounding whitespace passes
through unchanged. -/
theorem C2_filter_amended (key : String) (raw : List Char) (hk : key ≠ "") :
    (transcribeWithGroq key (.okJson (some raw)) = .ok none ↔
       (jsTrim raw = [] ∨
        ∃ p ∈ WHISPER_HALLUCINATIONS, jsIncludes p (jsTrim raw) = true)) ∧
    ((jsTrim raw ≠ [] ∧
        ∀ p ∈ WHISPER_HALLUCINATIONS, jsIncludes p (jsTrim raw) = false) →
      transcribeWithGroq key (.okJson (some raw)) = .ok (some (jsTrim raw))) ∧
    transcribeWithGroq key (.okJson (some ("ご視聴ありがとうございました".toList))) = .ok none ∧
    transcribeWithGroq key (.okJson (some ("よろしくお願いします".toList)))
      = .ok (some ("よろしくお願いします".toList)) := by
  have hbody1 : groqTryBody (.okJson (some ("ご視聴ありがとうございました".toList))) = .ok none := rfl
  have hbody2 : groqTryBody (.okJson (some ("よろしくお願いします".toList)))
      = .ok (some ("よろしくお願いします".toList)) := rfl
  refine ⟨?_, ?_, ?_, ?_⟩
  · by_cases h1 : jsTrim raw = []
    · simp [transcribeWithGroq, groqTryBody, hk, h1]
    · by_cases h2 : WHISPER_HALLUCINATIONS.any (fun p => jsIncludes p (jsTrim raw)) = true
      · simp [transcribeWithGroq, groqTryBody, hk, h1, h2]
        simpa [List.any_eq_true] using h2
      · simp [transcribeWithGroq, groqTryBody, hk, h1, h2]
        intro p hp
        by_contra hc
        simp only [Bool.not_eq_false] at hc
        exact h2 (List.any_eq_true.mpr ⟨p, hp, hc⟩)
  · rintro ⟨h1, h2⟩
    have h2b : WHISPER_HALLUCINATIONS.any (fun p => jsIncludes p (jsTrim raw)) = false := by
      rw [List.any_eq_false]
      intro p hp
      simp [h2 p hp]
    simp [transcribeWithGroq, groqTryBody, hk, h1, h2b]
  · show transcribeWithGroq key (.okJson (some ("ご視聴ありがとうございました".toList))) = .ok none
    unfold transcribeWithGroq
    rw [if_neg hk, hbody1]
  · show transcribeWithGroq key (.okJson (some ("よろしくお願いします".toList)))
      = .ok (some ("よろしくお願いします".toList))
    unfold transcribeWithGroq
    rw [if_neg hk, hbody2]

/-- Witness for C2 as amended: a call with a key discards the denylist
phrase about viewers. -/
theorem C2_filter_witness :
    transcribeWithGroq "k" (.okJson (some ("ご視聴ありがとうございました".toList))) = .ok none :=
  (C2_filter_amended "k" "x".toList (by decide)).2.2.1

/-- Claim C7: on every incremental recognition update, the results in
the window from the result index onward are partitioned into final and
interim text; a final-result callback occurs exactly for the
concatenation of the final transcripts (and at most one such callback
occurs), the concatenated interim text is emitted first as the
replaceable preview when nonempty, and whenever a final result is
emitted the last emission is an empty interim replacement. -/
theorem C7_onresult_partition (results : List SpeechRec.SRResult) (resultIndex : Nat) :
    (∀ t, SpeechRec.Action.cbFinal t ∈ SpeechRec.handleResult results resultIndex ↔
       (t = SpeechRec.concatTranscripts (fun r => r.isFinal) (results.drop resultIndex) ∧
        SpeechRec.concatTranscripts (fun r => r.isFinal) (results.drop resultIndex) ≠ "")) ∧
    ((SpeechRec.handleResult results resultIndex).countP
        (fun a => match a with | .cbFinal _ => true | _ => false) ≤ 1) ∧
    (SpeechRec.concatTranscripts (fun r => !r.isFinal) (results.drop resultIndex) ≠ "" →
      (SpeechRec.handleResult results resultIndex).head? =
        some (.cbInterim
          (SpeechRec.concatTranscripts (fun r => !r.isFinal) (results.drop resultIndex)))) ∧
    (SpeechRec.concatTranscripts (fun r => r.isFinal) (results.drop resultIndex) ≠ "" →
      (SpeechRec.handleResult results resultIndex).getLast? =
        some (.cbInterim "")) := by
  have hc := SpeechRec.collectLoop_eq (results.drop resultIndex) ("", "")
  rw [String.empty_append, String.empty_append] at hc
  have hr : SpeechRec.handleResult results resultIndex =
      (if SpeechRec.concatTranscripts (fun r => !r.isFinal) (results.drop resultIndex) ≠ ""
       then [SpeechRec.Action.cbInterim
              (SpeechRec.concatTranscripts (fun r => !r.isFinal) (results.drop resultIndex))]
       else []) ++
      (if SpeechRec.concatTranscripts (fun r => r.isFinal) (results.drop resultIndex) ≠ ""
       then [SpeechRec.Action.cbFinal
              (SpeechRec.concatTranscripts (fun r => r.isFinal) (results.drop resultIndex)),
             SpeechRec.Action.cbInterim ""]
       else []) := by
    unfold SpeechRec.handleResult
    rw [hc]
  rw [hr]
  generalize SpeechRec.concatTranscripts (fun r => r.isFinal) (results.drop resultIndex) = f
  generalize SpeechRec.concatTranscripts (fun r => !r.isFinal) (results.drop resultIndex) = i
  by_cases hf : f = "" <;> by_cases hi : i = "" <;>
    simp [hf, hi, List.countP_cons, List.countP_nil]

/-- Witness for C7: an update with one final and one interim result ends
with the empty interim replacement. -/
theorem C7_onresult_witness :
    (SpeechRec.handleResult [⟨true, "a"⟩, ⟨false, "b"⟩] 0).getLast? =
      some (SpeechRec.Action.cbInterim "") :=
  (C7_onresult_partition [⟨true, "a"⟩, ⟨false, "b"⟩] 0).2.2.2 (by decide)

/-- Claim C8: stopping the other channel is total and idempotent: after
any `stopSystemAudio` call the system stream is gone and the derived
capture state reports the other channel inactive, the rotation timer,
both recorders, their chunk buffers, and every mix-graph node (keep
alive oscillator, source, destination, gain, analyser) are reset, a
second call leaves the state unchanged, and that second call merely
notifies: it finds nothing left to stop or disconnect. -/
theorem C8_stop_idempotent (s : AudioCap.EngineState) :
    ((AudioCap.stopSystemAudio s).1.systemStream = none) ∧
    ((AudioCap.getState (AudioCap.stopSystemAudio s).1).2 = false) ∧
    ((AudioCap.stopSystemAudio s).1.switchInterval = false) ∧
    ((AudioCap.stopSystemAudio s).1.recorders = []) ∧
    ((AudioCap.stopSystemAudio s).1.recorderChunks = [[], []]) ∧
    ((AudioCap.stopSystemAudio s).1.keepAliveOscillator = false) ∧
    ((AudioCap.stopSystemAudio s).1.sourceNode = false) ∧
    ((AudioCap.stopSystemAudio s).1.destinationNode = false) ∧
    ((AudioCap.stopSystemAudio s).1.inputGainNode = false) ∧
    ((AudioCap.stopSystemAudio s).1.analyserNode = false) ∧
    ((AudioCap.stopSystemAudio (AudioCap.stopSystemAudio s).1).1
       = (AudioCap.stopSystemAudio s).1) ∧
    ((AudioCap.stopSystemAudio (AudioCap.stopSystemAudio s).1).2
       = [AudioCap.Action.notifyState
            (AudioCap.getState (AudioCap.stopSystemAudio s).1).1 false]) := by
  rw [AudioCap.stopSystemAudio_state]
  refine ⟨rfl, rfl, rfl, rfl, rfl, rfl, rfl, rfl, rfl, rfl, ?_, ?_⟩
  · rw [AudioCap.stopSystemAudio_state]
  · simp [AudioCap.stopSystemAudio, AudioCap.notifyAction, AudioCap.getState]

/-- Claim C4: starting the other channel on a captured stream with zero
audio tracks fails the start call, tears the stream down (track stop is
emitted and the stream reference is cleared), and performs no mix-graph
construction and no recorder-pool construction at all. -/
theorem C4_zero_audio_tracks_fail (s : AudioCap.EngineState) (co : Bool)
    (g : AudioCap.GraphOutcome) (nv : Nat) (hctx : s.audioContext = true) :
    ((AudioCap.startSystemAudio ⟨co, .stream 0 nv, g⟩ s).1 = false) ∧
    ((AudioCap.startSystemAudio ⟨co, .stream 0 nv, g⟩ s).2.1.systemStream = none) ∧
    ((AudioCap.startSystemAudio ⟨co, .stream 0 nv, g⟩ s).2.1.recorders = []) ∧
    (AudioCap.Action.stopSystemTracks
       ∈ (AudioCap.startSystemAudio ⟨co, .stream 0 nv, g⟩ s).2.2) ∧
    (∀ a ∈ (AudioCap.startSystemAudio ⟨co, .stream 0 nv, g⟩ s).2.2,
       AudioCap.isGraphConstruction a = false ∧
       AudioCap.isPoolConstruction a = false) := by
  have hred : AudioCap.startSystemAudio ⟨co, .stream 0 nv, g⟩ s =
      (false,
       (AudioCap.stopSystemAudio
          { s with systemStream := some ⟨0, nv, true⟩ }).1,
       ([] ++ [AudioCap.Action.consoleWarn]) ++
         (AudioCap.stopSystemAudio
            { s with systemStream := some ⟨0, nv, true⟩ }).2) := by
    unfold AudioCap.startSystemAudio
    simp [hctx]
  rw [hred]
  refine ⟨rfl, ?_, ?_, ?_, ?_⟩
  · rw [AudioCap.stopSystemAudio_state]
  · rw [AudioCap.stopSystemAudio_state]
  · refine List.mem_append.2 (Or.inr ?_)
    exact AudioCap.stopSystemTracks_mem _ (by simp)
  · intro a ha
    rcases List.mem_append.1 ha with h | h
    · simp only [List.nil_append, List.mem_singleton] at h
      subst h; exact ⟨rfl, rfl⟩
    · exact AudioCap.stopSystemAudio_no_construction _ a h

/-- Witness for C4: a zero-audio-track capture on a fresh engine with an
audio context fails the start call. -/
theorem C4_zero_audio_witness :
    (AudioCap.startSystemAudio ⟨true, .stream 0 1, none⟩
       { AudioCap.initialState with audioContext := true }).1 = false :=
  (C4_zero_audio_tracks_fail
     { AudioCap.initialState with audioContext := true } true none 1 rfl).1

/-- Claim C6: when mix-graph construction fails (a throw after any
number of node-creation steps), the other-channel start still succeeds:
it returns true, a single fallback recorder is recording, that recorder
was started with a 3000 ms timeslice, and no rotation timer is armed. -/
theorem C6_graph_fallback (s : AudioCap.EngineState) (co : Bool)
    (na nv k : Nat) (hctx : s.audioContext = true) (hna : na ≠ 0) :
    ((AudioCap.startSystemAudio ⟨co, .stream na nv, some k⟩ s).1 = true) ∧
    ((AudioCap.startSystemAudio ⟨co, .stream na nv, some k⟩ s).2.1.recorders
       = [.recording]) ∧
    (AudioCap.Action.recorderStartTimeslice 3000
       ∈ (AudioCap.startSystemAudio ⟨co, .stream na nv, some k⟩ s).2.2) ∧
    (∀ ms, AudioCap.Action.setIntervalMs ms
       ∉ (AudioCap.startSystemAudio ⟨co, .stream na nv, some k⟩ s).2.2) := by
  have hred : AudioCap.startSystemAudio ⟨co, .stream na nv, some k⟩ s =
      (true,
       (AudioCap.startSimpleRecording
          { { s with systemStream := some ⟨na, nv, true⟩ } with
              sourceNode := 1 ≤ k, destinationNode := 2 ≤ k
            , inputGainNode := 3 ≤ k, analyserNode := 4 ≤ k
            , keepAliveOscillator := 5 ≤ k }).1,
       (([] ++ [AudioCap.Action.disableVideoTracks]) ++
          (AudioCap.graphStepActions k ++ [AudioCap.Action.consoleError] ++
           [AudioCap.Action.recorderCreate 0,
            AudioCap.Action.recorderStartTimeslice 3000])) ++
         [AudioCap.notifyAction
            (AudioCap.startSimpleRecording
               { { s with systemStream := some ⟨na, nv, true⟩ } with
                   sourceNode := 1 ≤ k, destinationNode := 2 ≤ k
                 , inputGainNode := 3 ≤ k, analyserNode := 4 ≤ k
                 , keepAliveOscillator := 5 ≤ k }).1]) := by
    unfold AudioCap.startSystemAudio AudioCap.setupAudioMixing
    simp [hctx, hna, AudioCap.startSimpleRecording]
  rw [hred]
  refine ⟨rfl, rfl, ?_, ?_⟩
  · refine List.mem_append.2 (Or.inl ?_)
    refine List.mem_append.2 (Or.inr ?_)
    simp
  · intro ms hmem
    rcases List.mem_append.1 hmem with h | h
    · rcases List.mem_append.1 h with h | h
      · simp at h
      · rcases List.mem_append.1 h with h | h
        · rcases List.mem_append.1 h with h | h
          · have := AudioCap.graphStepActions_pool_free k _ h
            simp [AudioCap.isPoolConstruction] at this
          · simp at h
        · simp at h
    · simp [AudioCap.notifyAction] at h

/-- Witness for C6: graph construction failing at once (zero completed
steps) on a fresh engine still yields a successful start. -/
theorem C6_graph_fallback_witness :
    (AudioCap.startSystemAudio ⟨true, .stream 1 1, some 0⟩
       { AudioCap.initialState with audioContext := true }).1 = true :=
  (C6_graph_fallback
     { AudioCap.initialState with audioContext := true } true 1 1 0 rfl
     (by decide)).1

/-- Claim C5: on every rotation tick the active index swaps between 0
and 1 (the next index is computed modulo 2), the next recorder is
started exactly when it is inactive and any start action comes first in
the tick while any stop action comes last, the rotation interval is
armed at 3000 ms, and when a recorder stops its buffer is assembled
into one segment, the buffer is cleared, and a chunk is emitted exactly
when the assembled size is nonzero. -/
theorem C5_rotation_spec (s : AudioCap.EngineState)
    (hlen : s.recorders.length = 2) (hidx : s.activeRecorderIndex < 2) :
    ((AudioCap.switchTick s).1.activeRecorderIndex = 1 - s.activeRecorderIndex) ∧
    ((AudioCap.switchTick s).1.activeRecorderIndex = (s.activeRecorderIndex + 1) % 2) ∧
    (AudioCap.Action.recorderStart ((s.activeRecorderIndex + 1) % 2)
        ∈ (AudioCap.switchTick s).2 ↔
      s.recorders.getD ((s.activeRecorderIndex + 1) % 2) .inactive
        = AudioCap.RecState.inactive) ∧
    (∀ j, AudioCap.Action.recorderStart j ∈ (AudioCap.switchTick s).2 →
       (AudioCap.switchTick s).2.head? = some (AudioCap.Action.recorderStart j)) ∧
    (∀ j, AudioCap.Action.recorderStop j ∈ (AudioCap.switchTick s).2 →
       (AudioCap.switchTick s).2.getLast? = some (AudioCap.Action.recorderStop j)) ∧
    (AudioCap.Action.setIntervalMs 3000 ∈ (AudioCap.startDualRecording s).2) ∧
    (∀ j, (AudioCap.recorderOnStop s j).1.recorderChunks.getD j [] = []) ∧
    (∀ j, (AudioCap.recorderOnStop s j).2 =
       if 0 < (s.recorderChunks.getD j []).foldl (· + ·) 0
       then [AudioCap.Action.emitChunk
              ((s.recorderChunks.getD j []).foldl (· + ·) 0)]
       else []) := by
  obtain ⟨mic, sys, recs, chunks, idx, sw, ac, sn, ig, dn, osc, an⟩ := s
  simp only at hlen hidx ⊢
  rcases recs with _ | ⟨r0, recs⟩
  · simp at hlen
  rcases recs with _ | ⟨r1, recs⟩
  · simp at hlen
  rcases recs with _ | ⟨r2, recs⟩
  rotate_left
  · simp at hlen
  have hidx2 : idx = 0 ∨ idx = 1 := by omega
  rcases hidx2 with rfl | rfl <;> cases r0 <;> cases r1 <;>
    refine ⟨by simp [AudioCap.switchTick], by simp [AudioCap.switchTick],
            by simp [AudioCap.switchTick], ?_, ?_,
            by simp [AudioCap.startDualRecording],
            fun j => by
              simpa [AudioCap.recorderOnStop] using
                AudioCap.getD_set_self chunks j [],
            fun j => rfl⟩ <;>
    · intro j hj
      simp only [AudioCap.switchTick, List.mem_append, List.mem_singleton,
                 List.mem_cons, List.not_mem_nil, or_false] at hj ⊢
      rcases hj with hj | hj <;> simp_all

/-- Witness for C5: a tick on a pool whose recorder 0 is recording and
recorder 1 is idle swaps the active index from 0 to 1. -/
theorem C5_rotation_witness :
    (AudioCap.switchTick ⟨none, none, [.recording, .inactive], [[], []], 0,
        true, true, true, true, true, true, true⟩).1.activeRecorderIndex = 1 :=
  (C5_rotation_spec ⟨none, none, [.recording, .inactive], [[], []], 0,
      true, true, true, true, true, true, true⟩ rfl (by decide)).1

end Gijiroku
